import Mathlib

/-!
Shallow embedding of the session synchronization and change-detection engine
of the claude-subconscious repository (src/scripts/sync_letta_memory.ts,
src/scripts/pretool_sync.ts and the shared conversation utilities).
Pure computations are translated directly; the HTTP exchanges are made
explicit as response values, and the remote conversation-create call is
modelled by a supplied fresh identifier.
-/

namespace LettaSync

/-- A raw entry of the remote message feed, as parsed from the feed response
(interface LettaMessage in both scripts). Optional fields are Option. -/
structure LettaMessage where
  id : String
  message_type : String
  content : Option String
  text : Option String
  date : Option String
deriving Repr, DecidableEq

/-- A surfaced message (interface MessageInfo in both scripts). -/
structure MessageInfo where
  id : String
  text : String
  date : Option String
deriving Repr, DecidableEq

/-- Result of the message fetch: the new messages and the advanced cursor. -/
structure FetchResult where
  messages : List MessageInfo
  lastMessageId : Option String
deriving Repr, DecidableEq

/-- A labeled memory block; only the fields the diff engine reads. -/
structure MemoryBlock where
  label : String
  value : String
deriving Repr, DecidableEq

/-- The HTTP response of the message-feed fetch: ok is the 2xx flag
(response.ok in the source), body the parsed JSON list. -/
structure FeedResponse where
  ok : Bool
  body : List LettaMessage
deriving Repr, DecidableEq

/-- The assistant filter of both trackers:
allMessages.filter on message_type being assistant_message. -/
def assistantFilter (allMessages : List LettaMessage) : List LettaMessage :=
  allMessages.filter (fun msg => msg.message_type == "assistant_message")

/-- The text extraction of the push loop: content falling back to text
(JS disjunction, empty strings are falsy), then the truthiness guard that
skips entries without a non-empty text. -/
def textOf (msg : LettaMessage) : Option String :=
  let raw : Option String :=
    match msg.content with
    | some c => if c == "" then msg.text else some c
    | none => msg.text
  match raw with
  | some t => if t == "" then none else some t
  | none => none

/-- The push loop of fetchAssistantMessages / fetchNewMessages, applied to the
slice of the first endIndex assistant messages: keep each entry with a
non-empty text, projected to MessageInfo. -/
def collectMessages (msgs : List LettaMessage) : List MessageInfo :=
  msgs.filterMap (fun msg =>
    (textOf msg).map (fun t => { id := msg.id, text := t, date := msg.date }))

/-- The endIndex computation of both trackers: the whole visible window when
no cursor is recorded; otherwise the index of the first visible message whose
id equals the cursor (findIndex), or again the whole window when the cursor id
is absent (findIndex returned -1). -/
def cursorEndIndex (assistantMessages : List LettaMessage) : Option String → Nat
  | none => assistantMessages.length
  | some c =>
    match assistantMessages.findIdx? (fun msg => msg.id == c) with
    | some lastSeenIndex => lastSeenIndex
    | none => assistantMessages.length

/-- Pure core of the cursor tracker, shared verbatim by fetchAssistantMessages
(sync_letta_memory.ts) and fetchNewMessages (pretool_sync.ts): the code that
runs after a 2xx response has been parsed. The advanced cursor is the id of
the newest (position 0) visible message, or the previous cursor when the
visible window is empty. -/
def newSince (allMessages : List LettaMessage) (lastSeenMessageId : Option String) :
    FetchResult :=
  let assistantMessages := assistantFilter allMessages
  { messages :=
      collectMessages (assistantMessages.take (cursorEndIndex assistantMessages lastSeenMessageId))
    lastMessageId :=
      match assistantMessages with
      | [] => lastSeenMessageId
      | msg :: _ => some msg.id }

/-- fetchAssistantMessages of sync_letta_memory.ts with the HTTP exchange made
explicit: a null conversationId short-circuits to an empty result, a non-2xx
response degrades to no messages with the cursor left at its previous value,
and otherwise the tracker core runs on the parsed body. -/
def fetchAssistantMessages (conversationId : Option String) (response : FeedResponse)
    (lastSeenMessageId : Option String) : FetchResult :=
  match conversationId with
  | none => { messages := [], lastMessageId := none }
  | some _ =>
    if response.ok then newSince response.body lastSeenMessageId
    else { messages := [], lastMessageId := lastSeenMessageId }

/-- fetchNewMessages of pretool_sync.ts: the same tracker logic, duplicated in
the source (only the fetch limit differs, which does not appear in the pure
core). -/
def fetchNewMessages (conversationId : Option String) (response : FeedResponse)
    (lastSeenMessageId : Option String) : FetchResult :=
  match conversationId with
  | none => { messages := [], lastMessageId := none }
  | some _ =>
    if response.ok then newSince response.body lastSeenMessageId
    else { messages := [], lastMessageId := lastSeenMessageId }

/-- detectChangedBlocks, identical in both scripts: on first sync (no previous
mapping) nothing is reported; otherwise keep exactly the current blocks whose
label is absent from the previous mapping or whose recorded value differs. -/
def detectChangedBlocks (currentBlocks : List MemoryBlock)
    (lastBlockValues : Option (List (String × String))) : List MemoryBlock :=
  match lastBlockValues with
  | none => []
  | some prev =>
    currentBlocks.filter (fun block =>
      match prev.lookup block.label with
      | none => true
      | some previousValue => previousValue != block.value)

/-- The JS split on the newline character, on the character list of the
string: an empty string yields one empty piece, every newline starts a new
piece. -/
def splitLinesChars : List Char → List (List Char)
  | [] => [[]]
  | c :: rest =>
    let r := splitLinesChars rest
    if c = '\n' then [] :: r
    else
      match r with
      | [] => [[c]]
      | h :: t => (c :: h) :: t

/-- The JS trim: drop surrounding whitespace characters from both ends. -/
def trimChars (cs : List Char) : List Char :=
  ((cs.dropWhile Char.isWhitespace).reverse.dropWhile Char.isWhitespace).reverse

/-- The line preparation of computeDiff: split on the newline character, trim
each line of surrounding whitespace, drop lines that became empty. -/
def splitTrimmedLines (value : String) : List String :=
  ((splitLinesChars value.data).map (fun cs => String.mk (trimChars cs))).filter
    (fun l => !l.isEmpty)

/-- computeDiff of sync_letta_memory.ts: the set-based line diff. Added keeps
the new lines missing from the old line set, removed keeps the old lines
missing from the new line set. -/
def computeDiff (oldValue newValue : String) : List String × List String :=
  let oldLines := splitTrimmedLines oldValue
  let newLines := splitTrimmedLines newValue
  let added := newLines.filter (fun line => !(oldLines.contains line))
  let removed := oldLines.filter (fun line => !(newLines.contains line))
  (added, removed)

/-- The on-disk session record (interface SyncState of conversation_utils.ts).
Optional fields are Option. -/
structure SyncState where
  lastProcessedIndex : Int
  sessionId : String
  conversationId : Option String
  lastBlockValues : Option (List (String × String))
  lastSeenMessageId : Option String
deriving Repr, DecidableEq

/-- A structured binding-table entry (interface ConversationEntry). -/
structure ConversationEntry where
  conversationId : String
  agentId : String
deriving Repr, DecidableEq

/-- A binding-table value: the legacy shape is a bare identifier string, the
current shape a structured entry (the union type of ConversationsMap). -/
inductive CachedConv where
  | str (s : String)
  | obj (e : ConversationEntry)
deriving Repr, DecidableEq

/-- The per-project conversation binding table, keyed by sessionId
(conversations.json). -/
abbrev ConversationsMap := List (String × CachedConv)

/-- Deleting the entry of one session from the binding table. -/
def mapDelete (m : ConversationsMap) (k : String) : ConversationsMap :=
  m.filter (fun p => p.1 != k)

/-- Assigning the entry of one session. In the source every assignment either
follows a delete of the same key or a missed lookup, so the key is absent and
the assignment appends. -/
def mapSet (m : ConversationsMap) (k : String) (v : CachedConv) : ConversationsMap :=
  mapDelete m k ++ [(k, v)]

/-- The in-branch normalization of getOrCreateConversation: a bare string
becomes a pair with a null agent id, a structured entry keeps its fields. -/
def normalizeEntry : CachedConv → String × Option String
  | .str s => (s, none)
  | .obj e => (e.conversationId, some e.agentId)

/-- JS truthiness of the recorded agent id: null and the empty string are
falsy, every other string is truthy. -/
def agentTruthy : Option String → Bool
  | none => false
  | some a => !a.isEmpty

/-- The observable outcome of one resolver call: the returned conversation id,
the updated binding table, the updated session record, and the number of
remote conversation-create calls performed. -/
structure ResolveResult where
  conversationId : String
  conversationsMap : ConversationsMap
  state : SyncState
  createCalls : Nat
deriving Repr, DecidableEq

/-- The create-and-bind tail shared by three branches of
getOrCreateConversation: perform the remote create (modelled by the supplied
fresh id), write the structured entry into the table, record the id in the
session record. -/
def createAndBind (agentId sessionId freshId : String) (state : SyncState)
    (m : ConversationsMap) : ResolveResult :=
  { conversationId := freshId
    conversationsMap := mapSet m sessionId (.obj { conversationId := freshId, agentId := agentId })
    state := { state with conversationId := some freshId }
    createCalls := 1 }

/-- getOrCreateConversation of conversation_utils.ts. The remote create call
is modelled by freshId, the id the remote would return. Branches, in source
order: fast path on the record; table lookup; agent mismatch; legacy shape;
matching entry; no entry. -/
def getOrCreateConversation (agentId sessionId : String) (state : SyncState)
    (conversationsMap : ConversationsMap) (freshId : String) : ResolveResult :=
  match state.conversationId with
  | some cid =>
    { conversationId := cid, conversationsMap := conversationsMap
      state := state, createCalls := 0 }
  | none =>
    match conversationsMap.lookup sessionId with
    | some cached =>
      let entry := normalizeEntry cached
      if agentTruthy entry.2 && !(entry.2 == some agentId) then
        createAndBind agentId sessionId freshId state conversationsMap
      else if !(agentTruthy entry.2) then
        createAndBind agentId sessionId freshId state conversationsMap
      else
        { conversationId := entry.1
          conversationsMap := conversationsMap
          state := { state with conversationId := some entry.1 }
          createCalls := 0 }
    | none => createAndBind agentId sessionId freshId state conversationsMap

/-- The delta-bearing outcome of one UserPromptSubmit sync invocation. -/
structure SyncOutcome where
  newMessages : List MessageInfo
  changedBlocks : List MemoryBlock
  savedState : SyncState
deriving Repr, DecidableEq

/-- Pure core of main in sync_letta_memory.ts, from the fetched agent blocks
and the feed response to the emitted deltas and the record that is saved:
run the tracker and the diff engine, then overwrite lastBlockValues with the
current snapshot and, when a cursor was returned, record it. -/
def runUserPromptSync (agentBlocks : List MemoryBlock) (conversationId : Option String)
    (feedResponse : FeedResponse) (state : SyncState) : SyncOutcome :=
  let fetched := fetchAssistantMessages conversationId feedResponse state.lastSeenMessageId
  let changedBlocks := detectChangedBlocks agentBlocks state.lastBlockValues
  let state1 :=
    { state with lastBlockValues := some (agentBlocks.map (fun b => (b.label, b.value))) }
  let state2 :=
    match fetched.lastMessageId with
    | some mid => { state1 with lastSeenMessageId := some mid }
    | none => state1
  { newMessages := fetched.messages, changedBlocks := changedBlocks, savedState := state2 }

/-- The externally visible effect points of one invocation of main. -/
inductive SyncEvent where
  | loadState
  | fetchRemote
  | computeDeltas
  | writeClaudeMd
  | emitDelta
  | persistState
deriving Repr, DecidableEq

/-- Effect order of main in sync_letta_memory.ts: loadSyncState, the parallel
fetch, detectChangedBlocks, updateClaudeMd, the console.log of the delta
payload, and finally saveSyncState. -/
def syncLettaMainTrace : List SyncEvent :=
  [.loadState, .fetchRemote, .computeDeltas, .writeClaudeMd, .emitDelta, .persistState]

/-- Effect order of main in pretool_sync.ts: loadSyncState, the parallel
fetch, detectChangedBlocks, then saveSyncState, and only afterwards the
console.log of the hook output carrying the delta. -/
def pretoolMainTrace : List SyncEvent :=
  [.loadState, .fetchRemote, .computeDeltas, .persistState, .emitDelta]

/-- A concrete assistant-authored feed entry, for concrete runs. -/
def mkAsstMsg (i : String) : LettaMessage :=
  { id := i, message_type := "assistant_message"
    content := some (String.append "body " i), text := none, date := none }

/-- The five-message newest-first feed of the worked example of the spec. -/
def exampleFeed : List LettaMessage :=
  [mkAsstMsg "m5", mkAsstMsg "m4", mkAsstMsg "m3", mkAsstMsg "m2", mkAsstMsg "m1"]

/-- A session record with no bound conversation, for concrete runs. -/
def freshState : SyncState :=
  { lastProcessedIndex := -1, sessionId := "sess-1", conversationId := none
    lastBlockValues := none, lastSeenMessageId := none }

/-- A session record already bound to a conversation, for concrete runs. -/
def boundState : SyncState :=
  { freshState with conversationId := some "conv-a" }

/-- A binding table holding one legacy (bare string) entry. -/
def legacyMap : ConversationsMap := [("sess-1", CachedConv.str "conv-old")]

/-- A binding table holding one structured entry recorded for agent-a. -/
def boundMap : ConversationsMap :=
  [("sess-1", CachedConv.obj { conversationId := "conv-a", agentId := "agent-a" })]

/-- A one-block snapshot, for concrete runs. -/
def exampleBlocks : List MemoryBlock := [{ label := "persona", value := "likes cats" }]

/-- A previous block-value mapping containing a label that has since been
deleted, for concrete runs. -/
def examplePrev : List (String × String) := [("old", "gone"), ("persona", "likes cats")]

/-! ## Theorems -/

/-- The id sequence of the collected messages is an order-preserving
subsequence of the id sequence of the slice it was collected from. -/
theorem collectMessages_map_id_sublist (l : List LettaMessage) :
    List.Sublist ((collectMessages l).map MessageInfo.id) (l.map LettaMessage.id) := by
  induction l with
  | nil => simp [collectMessages]
  | cons m t ih =>
    simp only [collectMessages, List.filterMap_cons, List.map_cons]
    cases h : (textOf m).map
        (fun t => ({ id := m.id, text := t, date := m.date } : MessageInfo)) with
    | none => exact (ih).cons m.id
    | some b =>
      have hb : b.id = m.id := by
        cases ht : textOf m with
        | none => rw [ht] at h; simp at h
        | some tx => rw [ht] at h; simp at h; rw [← h]
      simp only [List.map_cons, hb]
      exact ih.cons₂ m.id

/-- The ids returned by the tracker core form an order-preserving subsequence
of the ids of the raw feed: the feed order (newest-first) is kept. -/
theorem newSince_map_id_sublist (feed : List LettaMessage) (c : Option String) :
    List.Sublist ((newSince feed c).messages.map MessageInfo.id)
      (feed.map LettaMessage.id) := by
  have h1 := collectMessages_map_id_sublist
    ((assistantFilter feed).take (cursorEndIndex (assistantFilter feed) c))
  have h2 : List.Sublist ((assistantFilter feed).take
      (cursorEndIndex (assistantFilter feed) c)) (assistantFilter feed) :=
    List.take_sublist _ _
  have h3 : List.Sublist (assistantFilter feed) feed := List.filter_sublist feed
  exact h1.trans ((h2.trans h3).map LettaMessage.id)

/-- The two trackers are the same function. -/
theorem fetchNewMessages_eq_fetchAssistantMessages :
    fetchNewMessages = fetchAssistantMessages := rfl

/-- Claim C1 counterexample: on the worked example, feed [m5, m4, m3, m2, m1]
(newest-first) with cursor m3, the tracker does not return [m4, m5]: no
reversal into chronological order happens. -/
theorem c1_counterexample :
    ¬ ((fetchAssistantMessages (some "conv-1") { ok := true, body := exampleFeed }
        (some "m3")).messages.map MessageInfo.id = ["m4", "m5"]) := by
  have h : (fetchAssistantMessages (some "conv-1") { ok := true, body := exampleFeed }
      (some "m3")).messages.map MessageInfo.id = ["m5", "m4"] := by decide
  rw [h]; decide

/-- Claim C1 amended: both trackers return the new messages in feed order
(newest-first), never reversed: the returned id sequence is an
order-preserving subsequence of the feed id sequence, and on the worked
example feed [m5, m4, m3, m2, m1] with cursor m3 the result is [m5, m4] with
new cursor m5; fetchNewMessages behaves identically to
fetchAssistantMessages. -/
theorem c1_messages_in_feed_order :
    (∀ (convId : Option String) (resp : FeedResponse) (lastSeen : Option String),
      List.Sublist ((fetchAssistantMessages convId resp lastSeen).messages.map MessageInfo.id)
        (resp.body.map LettaMessage.id) ∧
      fetchNewMessages convId resp lastSeen = fetchAssistantMessages convId resp lastSeen) ∧
    (fetchAssistantMessages (some "conv-1") { ok := true, body := exampleFeed }
      (some "m3")).messages.map MessageInfo.id = ["m5", "m4"] ∧
    (fetchAssistantMessages (some "conv-1") { ok := true, body := exampleFeed }
      (some "m3")).lastMessageId = some "m5" := by
  refine ⟨fun convId resp lastSeen => ⟨?_, rfl⟩, by decide, by decide⟩
  cases convId with
  | none => simp [fetchAssistantMessages]
  | some cid =>
    by_cases h : resp.ok
    · simpa [fetchAssistantMessages, h] using newSince_map_id_sublist resp.body lastSeen
    · simp [fetchAssistantMessages, h]

/-- Claim C3: the tracker advances the cursor to the id of the newest
(position 0) visible message; on an empty visible window it returns no
messages and leaves the cursor unchanged; re-running on the same feed with
the cursor it just returned yields zero new messages; and the full
fetchAssistantMessages on a 2xx response is exactly this tracker core. -/
theorem c3_cursor_monotonicity (feed : List LettaMessage) (lastSeen : Option String) :
    (∀ msg rest, assistantFilter feed = msg :: rest →
      (newSince feed lastSeen).lastMessageId = some msg.id) ∧
    (assistantFilter feed = [] →
      (newSince feed lastSeen).messages = [] ∧
      (newSince feed lastSeen).lastMessageId = lastSeen) ∧
    (newSince feed (newSince feed lastSeen).lastMessageId).messages = [] ∧
    (∀ cid, fetchAssistantMessages (some cid) { ok := true, body := feed } lastSeen =
      newSince feed lastSeen) := by
  refine ⟨?_, ?_, ?_, fun cid => rfl⟩
  · intro msg rest h
    simp [newSince, h]
  · intro h
    simp [newSince, h, collectMessages]
  · cases h : assistantFilter feed with
    | nil => simp [newSince, h, collectMessages]
    | cons m rest =>
      have hl : (newSince feed lastSeen).lastMessageId = some m.id := by
        simp [newSince, h]
      rw [hl]
      simp [newSince, h, cursorEndIndex, List.findIdx?_cons, collectMessages]

/-- Claim C3 witness: concrete instances discharging each hypothesis on the
worked five-message feed and on the empty feed. -/
theorem c3_cursor_monotonicity_witness :
    (newSince exampleFeed (some "m3")).lastMessageId = some (mkAsstMsg "m5").id ∧
    ((newSince [] (some "m3")).messages = [] ∧
      (newSince [] (some "m3")).lastMessageId = some "m3") ∧
    (newSince exampleFeed (newSince exampleFeed (some "m3")).lastMessageId).messages = [] :=
  ⟨(c3_cursor_monotonicity exampleFeed (some "m3")).1 (mkAsstMsg "m5")
      [mkAsstMsg "m4", mkAsstMsg "m3", mkAsstMsg "m2", mkAsstMsg "m1"] (by decide),
    (c3_cursor_monotonicity [] (some "m3")).2.1 (by decide),
    (c3_cursor_monotonicity exampleFeed (some "m3")).2.2.1⟩

/-- Claim C6: a cursor id that does not occur among the visible (assistant)
messages of the fetched window makes the tracker return the entire visible
window as new, the same result as running with no cursor at all. -/
theorem c6_cursor_miss_full_window (feed : List LettaMessage) (c : String)
    (h : c ∉ (assistantFilter feed).map LettaMessage.id) :
    (newSince feed (some c)).messages = collectMessages (assistantFilter feed) ∧
    (newSince feed (some c)).messages = (newSince feed none).messages := by
  have hf : (assistantFilter feed).findIdx? (fun msg => msg.id == c) = none := by
    rw [List.findIdx?_eq_none_iff]
    intro x hx
    simp only [beq_eq_false_iff_ne, ne_eq]
    intro hxc
    exact h (List.mem_map.mpr ⟨x, hx, hxc⟩)
  constructor
  · simp [newSince, cursorEndIndex, hf]
  · simp [newSince, cursorEndIndex, hf]

/-- Claim C6 witness: a cursor id that scrolled out of the worked example
window. -/
theorem c6_cursor_miss_full_window_witness :
    "m9" ∉ (assistantFilter exampleFeed).map LettaMessage.id ∧
    ((newSince exampleFeed (some "m9")).messages = collectMessages (assistantFilter exampleFeed) ∧
      (newSince exampleFeed (some "m9")).messages = (newSince exampleFeed none).messages) :=
  ⟨by decide, c6_cursor_miss_full_window exampleFeed "m9" (by decide)⟩

/-- Claim C7: computeDiff reports as added exactly the prepared new lines
(split on newline, trimmed, empties dropped) absent from the old line set,
and as removed exactly the prepared old lines absent from the new line set;
on the worked example the result is added [likes dogs], removed []. -/
theorem c7_computeDiff_line_sets (oldValue newValue : String) :
    (∀ l, l ∈ (computeDiff oldValue newValue).1 ↔
      (l ∈ splitTrimmedLines newValue ∧ l ∉ splitTrimmedLines oldValue)) ∧
    (∀ l, l ∈ (computeDiff oldValue newValue).2 ↔
      (l ∈ splitTrimmedLines oldValue ∧ l ∉ splitTrimmedLines newValue)) ∧
    computeDiff "likes cats" "likes cats\nlikes dogs" = (["likes dogs"], []) := by
  refine ⟨fun l => ?_, fun l => ?_, by decide⟩ <;>
    simp [computeDiff, List.mem_filter, List.elem_iff]

/-- Claim C2 counterexample: in the PreToolUse sync (main of pretool_sync.ts)
the emission of the delta payload does not precede the persistence of the
updated session record: saveSyncState runs before the console.log emitting
the delta. -/
theorem c2_counterexample :
    ¬ (pretoolMainTrace.indexOf SyncEvent.emitDelta <
        pretoolMainTrace.indexOf SyncEvent.persistState) := by
  decide

/-- Claim C2 amended: the UserPromptSubmit sync (main of sync_letta_memory.ts)
emits the delta payload before persisting the updated record, while the
PreToolUse sync (main of pretool_sync.ts) persists the updated record,
lastBlockValues included, before emitting the delta computed from it. -/
theorem c2_emit_persist_order :
    syncLettaMainTrace.indexOf SyncEvent.emitDelta <
      syncLettaMainTrace.indexOf SyncEvent.persistState ∧
    pretoolMainTrace.indexOf SyncEvent.persistState <
      pretoolMainTrace.indexOf SyncEvent.emitDelta := by
  decide

/-- Claim C8: when no previous block-value mapping exists (first sync), the
diff engine returns an empty changed set, for every current snapshot. -/
theorem c8_first_sync_silent (currentBlocks : List MemoryBlock) :
    detectChangedBlocks currentBlocks none = [] := rfl

/-- Looking up the key just assigned by mapSet yields the assigned value. -/
theorem lookup_mapSet (m : ConversationsMap) (k : String) (v : CachedConv) :
    (mapSet m k v).lookup k = some v := by
  have key : ∀ (l : ConversationsMap), (∀ p ∈ l, (p.1 == k) = false) →
      List.lookup k (l ++ [(k, v)]) = some v := by
    intro l
    induction l with
    | nil => intro _; simp [List.lookup]
    | cons p t ih =>
      obtain ⟨a, b⟩ := p
      intro h
      have ha := h (a, b) (List.mem_cons_self _ _)
      have hka : (k == a) = false := by
        simp only [beq_eq_false_iff_ne, ne_eq] at ha ⊢
        exact fun e => ha e.symm
      simp only [List.cons_append, List.lookup, hka]
      exact ih (fun q hq => h q (List.mem_cons_of_mem _ hq))
  apply key
  intro p hp
  have hne := (List.mem_filter.mp hp).2
  simpa [bne_iff_ne, beq_eq_false_iff_ne] using hne

/-- Claim C4: a binding-table entry that is legacy-shaped (bare identifier
string) or whose recorded agent differs from the configured agentId is
discarded by the resolver: one remote conversation is created, the table
entry is overwritten with the structured pair for the current agent, the new
id is returned and recorded in the session record. -/
theorem c4_stale_binding_recreated (agentId sessionId freshId : String)
    (state : SyncState) (m : ConversationsMap) (cached : CachedConv)
    (hstate : state.conversationId = none)
    (hlook : m.lookup sessionId = some cached)
    (hstale : (∃ s, cached = CachedConv.str s) ∨
      (∃ e, cached = CachedConv.obj e ∧ e.agentId.isEmpty = false ∧ e.agentId ≠ agentId)) :
    (getOrCreateConversation agentId sessionId state m freshId).conversationId = freshId ∧
    (getOrCreateConversation agentId sessionId state m freshId).createCalls = 1 ∧
    (getOrCreateConversation agentId sessionId state m freshId).conversationsMap.lookup sessionId
      = some (CachedConv.obj { conversationId := freshId, agentId := agentId }) ∧
    (getOrCreateConversation agentId sessionId state m freshId).state.conversationId
      = some freshId := by
  have hbranch : getOrCreateConversation agentId sessionId state m freshId =
      createAndBind agentId sessionId freshId state m := by
    rcases hstale with ⟨s, rfl⟩ | ⟨e, rfl, he1, he2⟩
    · simp [getOrCreateConversation, hstate, hlook, normalizeEntry, agentTruthy]
    · simp [getOrCreateConversation, hstate, hlook, normalizeEntry, agentTruthy, he1, he2]
  rw [hbranch]
  exact ⟨rfl, rfl, lookup_mapSet m sessionId _, rfl⟩

/-- Claim C4 witness: a legacy bare-string entry is upgraded on a concrete
table. -/
theorem c4_stale_binding_recreated_witness :
    (getOrCreateConversation "agent-b" "sess-1" freshState legacyMap "conv-new").conversationId
      = "conv-new" ∧
    (getOrCreateConversation "agent-b" "sess-1" freshState legacyMap "conv-new").createCalls = 1 ∧
    (getOrCreateConversation "agent-b" "sess-1" freshState legacyMap
        "conv-new").conversationsMap.lookup "sess-1"
      = some (CachedConv.obj { conversationId := "conv-new", agentId := "agent-b" }) ∧
    (getOrCreateConversation "agent-b" "sess-1" freshState legacyMap "conv-new").state.conversationId
      = some "conv-new" :=
  c4_stale_binding_recreated "agent-b" "sess-1" "conv-new" freshState legacyMap
    (CachedConv.str "conv-old") (by decide) (by decide) (Or.inl ⟨"conv-old", rfl⟩)

/-- Claim C5: a session record already carrying a conversationId is returned
unchanged with no create call, and a binding-table entry whose recorded agent
matches the configured (non-empty) agentId is reused with no create call. -/
theorem c5_stable_binding_reused (agentId sessionId freshId : String)
    (state : SyncState) (m : ConversationsMap) :
    (∀ cid, state.conversationId = some cid →
      getOrCreateConversation agentId sessionId state m freshId =
        { conversationId := cid, conversationsMap := m, state := state, createCalls := 0 }) ∧
    (∀ e, state.conversationId = none →
      m.lookup sessionId = some (CachedConv.obj e) →
      e.agentId = agentId → agentId.isEmpty = false →
      (getOrCreateConversation agentId sessionId state m freshId).conversationId =
        e.conversationId ∧
      (getOrCreateConversation agentId sessionId state m freshId).createCalls = 0) := by
  constructor
  · intro cid h
    simp [getOrCreateConversation, h]
  · intro e h1 h2 h3 h4
    subst h3
    simp [getOrCreateConversation, h1, h2, normalizeEntry, agentTruthy, h4]

/-- Claim C5 witness: the fast path on a bound record, and the reuse of a
matching structured entry, on concrete inputs. -/
theorem c5_stable_binding_reused_witness :
    (getOrCreateConversation "agent-a" "sess-1" boundState legacyMap "conv-new" =
      { conversationId := "conv-a", conversationsMap := legacyMap
        state := boundState, createCalls := 0 }) ∧
    ((getOrCreateConversation "agent-a" "sess-1" freshState boundMap "conv-new").conversationId
        = "conv-a" ∧
      (getOrCreateConversation "agent-a" "sess-1" freshState boundMap "conv-new").createCalls
        = 0) :=
  ⟨(c5_stable_binding_reused "agent-a" "sess-1" "conv-new" boundState legacyMap).1
      "conv-a" (by decide),
    (c5_stable_binding_reused "agent-a" "sess-1" "conv-new" freshState boundMap).2
      { conversationId := "conv-a", agentId := "agent-a" } (by decide) (by decide)
      (by decide) (by decide)⟩

/-- Claim C9: a non-2xx message-feed response degrades the sync rather than
failing it: no new messages, the cursor stays at its previous value, and the
block diff is still computed; fetchNewMessages degrades the same way. -/
theorem c9_feed_failure_degrades (agentBlocks : List MemoryBlock) (convId : String)
    (resp : FeedResponse) (state : SyncState) (h : resp.ok = false) :
    (runUserPromptSync agentBlocks (some convId) resp state).newMessages = [] ∧
    (runUserPromptSync agentBlocks (some convId) resp state).savedState.lastSeenMessageId =
      state.lastSeenMessageId ∧
    (runUserPromptSync agentBlocks (some convId) resp state).changedBlocks =
      detectChangedBlocks agentBlocks state.lastBlockValues ∧
    fetchNewMessages (some convId) resp state.lastSeenMessageId =
      { messages := [], lastMessageId := state.lastSeenMessageId } := by
  have hf : fetchAssistantMessages (some convId) resp state.lastSeenMessageId =
      { messages := [], lastMessageId := state.lastSeenMessageId } := by
    simp [fetchAssistantMessages, h]
  have hfix : ∀ ls : Option String, fetchAssistantMessages (some convId) resp ls =
      { messages := [], lastMessageId := ls } := by
    intro ls; simp [fetchAssistantMessages, h]
  refine ⟨?_, ?_, ?_, by simp [fetchNewMessages, h]⟩
  · simp [runUserPromptSync, hf]
  · cases hs : state.lastSeenMessageId <;> simp [runUserPromptSync, hfix, hs]
  · simp [runUserPromptSync]

/-- Claim C9 witness: a failed response on a concrete sync invocation. -/
theorem c9_feed_failure_degrades_witness :
    ({ ok := false, body := [] } : FeedResponse).ok = false ∧
    ((runUserPromptSync exampleBlocks (some "conv-1") { ok := false, body := [] }
        boundState).newMessages = [] ∧
      (runUserPromptSync exampleBlocks (some "conv-1") { ok := false, body := [] }
          boundState).savedState.lastSeenMessageId = boundState.lastSeenMessageId ∧
      (runUserPromptSync exampleBlocks (some "conv-1") { ok := false, body := [] }
          boundState).changedBlocks =
        detectChangedBlocks exampleBlocks boundState.lastBlockValues ∧
      fetchNewMessages (some "conv-1") { ok := false, body := [] }
          boundState.lastSeenMessageId =
        { messages := [], lastMessageId := boundState.lastSeenMessageId }) :=
  ⟨rfl, c9_feed_failure_degrades exampleBlocks "conv-1" { ok := false, body := [] }
    boundState rfl⟩

/-- Claim C10: the diff engine iterates only over current blocks, so a label
absent from the current snapshot never appears in the changed set: whole-block
deletions are silently omitted from the delta. -/
theorem c10_deleted_labels_omitted (currentBlocks : List MemoryBlock)
    (lastBlockValues : Option (List (String × String))) (label : String)
    (h : label ∉ currentBlocks.map MemoryBlock.label) :
    label ∉ (detectChangedBlocks currentBlocks lastBlockValues).map MemoryBlock.label := by
  cases lastBlockValues with
  | none => simp [detectChangedBlocks]
  | some prev =>
    intro hmem
    obtain ⟨b, hb, rfl⟩ := List.mem_map.mp hmem
    have hbc : b ∈ currentBlocks := by
      simp only [detectChangedBlocks, List.mem_filter] at hb
      exact hb.1
    exact h (List.mem_map.mpr ⟨b, hbc, rfl⟩)

/-- Claim C10 witness: a previously recorded label that was deleted from the
snapshot does not appear in the changed set on concrete inputs. -/
theorem c10_deleted_labels_omitted_witness :
    "old" ∉ exampleBlocks.map MemoryBlock.label ∧
    "old" ∉ (detectChangedBlocks exampleBlocks (some examplePrev)).map MemoryBlock.label :=
  ⟨by decide, c10_deleted_labels_omitted exampleBlocks (some examplePrev) "old" (by decide)⟩

end LettaSync
